import Mathlib

/-!
Verification of the PharmaCopilot data-aggregation gateway.

Shallow embedding of the resilient data-serving subsystem:
the `/api/current` fallback cascade and synthetic mock-data generator
(`UI Code/server.js`), the built-in degraded-mode report renderer
(`reportTemplates` and the `/api/reports/generate` endpoint in
`UI Code/server.js`), and the composite OEE scoring engine
(`calculateOEEFromRealData`, `getOEEStatus`, `updateHistoricalOEE` in the
`OEEDisplay` React component).

JavaScript numbers are modelled as `ℚ`; a field that may be `undefined`
is modelled as `Option ℚ`.  `Math.random()` draws are passed in
explicitly as rationals in `[0, 1)`.  Wall-clock time (`Date.now()`) is
passed in as a natural number of milliseconds.
-/

namespace PharmaCopilot

/-- `Math.round` (round half toward positive infinity). -/
def jsRound (q : ℚ) : ℤ := ⌊q + 1/2⌋

/-- `Math.round(x * 10) / 10` — rounding to one decimal as done on every
OEE sub-score before it is returned. -/
def round1 (q : ℚ) : ℚ := (jsRound (q * 10) : ℚ) / 10

/-- `(x || 0)` on a possibly-undefined numeric field: `undefined` gives `0`,
and a present value gives itself (`0 || 0` is `0` as well). -/
def getF (x : Option ℚ) : ℚ := x.getD 0

/-- `x > c` on a possibly-undefined field (`undefined > c` is `false` in JS). -/
def jsGt (x : Option ℚ) (c : ℚ) : Bool :=
  match x with
  | none => false
  | some v => decide (v > c)

/-- `x < c` on a possibly-undefined field (`undefined < c` is `false` in JS). -/
def jsLt (x : Option ℚ) (c : ℚ) : Bool :=
  match x with
  | none => false
  | some v => decide (v < c)

/-- `x >= c` on a possibly-undefined field. -/
def jsGe (x : Option ℚ) (c : ℚ) : Bool :=
  match x with
  | none => false
  | some v => decide (v ≥ c)

/-- `Math.min` on two numbers. -/
def jsMin (a b : ℚ) : ℚ := if a ≤ b then a else b

/-- `Math.max` on two numbers. -/
def jsMax (a b : ℚ) : ℚ := if a ≤ b then b else a

/-- JS truthiness of a possibly-undefined number: `undefined` and `0` are falsy. -/
def jsTruthy (x : Option ℚ) : Bool :=
  match x with
  | none => false
  | some v => decide (v ≠ 0)

/-- The sensor snapshot consumed by the scoring engine and the report
templates: the `data` object of a current-reading payload.  Every field
may be absent (`undefined`). -/
structure SensorData where
  waste : Option ℚ
  produced : Option ℚ
  ejection : Option ℚ
  tbl_speed : Option ℚ
  stiffness : Option ℚ
  SREL : Option ℚ
  main_comp : Option ℚ
  deriving DecidableEq

/-! ## Composite scoring engine (OEE)

`calculateOEEFromRealData`, `getOEEStatus` and `updateHistoricalOEE` from
the `OEEDisplay` component. -/

/-- The four rounded scores returned by `calculateOEEFromRealData`. -/
structure OEEOut where
  overall : ℚ
  availability : ℚ
  performance : ℚ
  quality : ℚ
  deriving DecidableEq

/-- The quality-class multiplier `{'High': 1.03, 'Medium': 1.0, 'Low': 0.95}[c] || 0.98`,
and `1` when no QualityPrediction is applied at all. -/
def qualityMultiplier : Option String → ℚ
  | none => 1
  | some c =>
      if c = "High" then 1.03
      else if c = "Medium" then 1.0
      else if c = "Low" then 0.95
      else 0.98

/-- `calculateOEEFromRealData(sensorData, defectPrediction, qualityPrediction, bufferInfo)`.

`defectP` is `some p` when a defect prediction with `defect_probability = p`
is available; `qualityP` is `some c` when a quality prediction with
`quality_class = c` is available; `bufferInsufficient` is true when
`bufferInfo` is present with `data_sufficiency.forecast_ready` false. -/
def calculateOEEFromRealData (s : SensorData) (defectP : Option ℚ)
    (qualityP : Option String) (bufferInsufficient : Bool) : OEEOut :=
  -- AVAILABILITY
  let a0 : ℚ := 98
  let a1 := if getF s.tbl_speed < 5 then a0 - 12 else a0
  let a2 := if getF s.ejection > 180 then a1 - 4 else a1
  let a3 := if getF s.waste > 8 then a2 - 2 else a2
  let a4 := if getF s.produced = 0 then a3 - 15 else a3
  let a5 := if bufferInsufficient then a4 - 3 else a4
  -- PERFORMANCE
  let p1 := jsMin (getF s.tbl_speed / 90 * 100) 105
  let p2 := jsMin (getF s.produced / 700 * 100) 105
  let p3 := p1 * 0.7 + p2 * 0.3
  let p4 := if getF s.main_comp > 25 ∨ getF s.main_comp < 8 then p3 * 0.99 else p3
  let p5 := if getF s.stiffness < 70 then p4 * 0.98 else p4
  -- QUALITY
  let q0 : ℚ :=
    match defectP with
    | some p => jsMax 90 ((1 - p) * 100)
    | none =>
        let q1 : ℚ := 97
        let q2 := if getF s.main_comp > 30 ∨ getF s.main_comp < 5 then q1 - 2 else q1
        let q3 := if getF s.SREL > 12 ∨ getF s.SREL < 0.5 then q2 - 1 else q2
        let q4 := if getF s.stiffness < 40 ∨ getF s.stiffness > 220 then q3 - 2 else q3
        let q5 := if getF s.ejection > 180 then q4 - 1 else q4
        q5 - jsMin (getF s.waste * 0.3) 3
  let q6 :=
    match qualityP with
    | some c => q0 * qualityMultiplier (some c)
    | none => q0
  -- final clamps
  let availability := jsMax 85 (jsMin 99.5 a5)
  let performance := jsMax 80 (jsMin 105 p5)
  let quality := jsMax 92 (jsMin 99.8 q6)
  let overall := availability * performance * quality / 10000
  { overall := round1 overall
    availability := round1 availability
    performance := round1 performance
    quality := round1 quality }

/-- The derived status classification `getOEEStatus`. -/
inductive OEEStatus where
  | excellent
  | good
  | fair
  | poor
  deriving DecidableEq

/-- `getOEEStatus(value)`. -/
def getOEEStatus (v : ℚ) : OEEStatus :=
  if v ≥ 75 then .excellent
  else if v ≥ 65 then .good
  else if v ≥ 55 then .fair
  else .poor

/-- One entry of the rolling OEE history: the formatted timestamp plus the
four scores, as appended by `updateHistoricalOEE`. -/
structure OEEEntry where
  time : Nat
  overall : ℚ
  availability : ℚ
  performance : ℚ
  quality : ℚ
  deriving DecidableEq

/-- `updateHistoricalOEE`: append the new entry then keep only the last 20
data points (`newData.slice(-20)`). -/
def updateHistoricalOEE (prev : List OEEEntry) (e : OEEEntry) : List OEEEntry :=
  let newData := prev ++ [e]
  newData.drop (newData.length - 20)

/-! ## Synthetic data generator and the `/api/current` fallback cascade

From `UI Code/server.js`: the mock current-reading generator (used both by
`GET /api/mock/current` and by the emergency terminal tier of the
`/api/current` cascade), the mock defect/quality prediction endpoints, and
the `onError` fallback cascade of the prediction-API proxy. -/

/-- The seven `Math.random()` draws used to build one synthetic reading. -/
structure Draws where
  rWaste : ℚ
  rProduced : ℚ
  rEjection : ℚ
  rSpeed : ℚ
  rStiffness : ℚ
  rSREL : ℚ
  rMainComp : ℚ
  deriving DecidableEq

/-- A draw of `Math.random()` lies in `[0, 1)`. -/
def unitDraw (r : ℚ) : Prop := 0 ≤ r ∧ r < 1

/-- All seven draws lie in `[0, 1)`. -/
def unitDraws (r : Draws) : Prop :=
  unitDraw r.rWaste ∧ unitDraw r.rProduced ∧ unitDraw r.rEjection ∧
    unitDraw r.rSpeed ∧ unitDraw r.rStiffness ∧ unitDraw r.rSREL ∧
    unitDraw r.rMainComp

/-- The synthetic sensor-reading fields generated by the mock data service
(`waste: Math.random() * 3 + 1`, `produced: Math.random() * 500 + 800`,
`ejection: Math.random() * 40 + 100`, `tbl_speed: Math.random() * 30 + 90`,
`stiffness: Math.random() * 50 + 75`, `SREL: Math.random() * 3 + 2.5`,
`main_comp: Math.random() * 8 + 12`), as a `SensorData` snapshot in which
every field is present. -/
def mockCurrentData (r : Draws) : SensorData :=
  { waste := some (r.rWaste * 3 + 1)
    produced := some (r.rProduced * 500 + 800)
    ejection := some (r.rEjection * 40 + 100)
    tbl_speed := some (r.rSpeed * 30 + 90)
    stiffness := some (r.rStiffness * 50 + 75)
    SREL := some (r.rSREL * 3 + 2.5)
    main_comp := some (r.rMainComp * 8 + 12) }

/-- The JSON body of a current-reading response: `status`, a `data` object
holding the sensor fields plus a timestamp, and the optional `source`,
`note` and `generated_at` fields.  Absent keys are `none`. -/
structure ApiBody where
  status : Option String
  data : Option (SensorData × Option Nat)
  source : Option String
  note : Option String
  generated_at : Option Nat
  deriving DecidableEq

/-- The emergency mock payload built inside the prediction-proxy `onError`
handler when the sensor-API fallback has also failed: a fully populated
synthetic reading tagged `source: 'emergency_fallback_mock'`. -/
def emergencyMockBody (r : Draws) (t : Nat) : ApiBody :=
  { status := some "success"
    data := some (mockCurrentData r, some t)
    source := some "emergency_fallback_mock"
    note := some "Both Prediction and Sensor APIs unavailable"
    generated_at := some t }

/-- Outcome of one upstream HTTP call: a decoded body, or a failure
(connection error / timeout), which is what triggers the next tier. -/
inductive Upstream (α : Type) where
  | ok (body : α)
  | fail
  deriving DecidableEq

/-- The gateway's HTTP response for `/api/current`: status code plus body.
`res.json(x)` responds `200` with body `x`. -/
structure GatewayResponse where
  statusCode : Nat
  body : ApiBody
  deriving DecidableEq

/-- The `/api/current` fallback cascade of `UI Code/server.js`:
the request is proxied to the prediction API; on proxy error the gateway
calls the raw sensor API and forwards its body verbatim
(`res.json(response.data)`); if that also fails it responds with the
emergency mock payload.  `pred` carries the proxied status code and body
when the prediction API responds. -/
def apiCurrentCascade (pred : Upstream (Nat × ApiBody)) (sensor : Upstream ApiBody)
    (r : Draws) (t : Nat) : GatewayResponse :=
  match pred with
  | .ok (code, body) => { statusCode := code, body := body }
  | .fail =>
      match sensor with
      | .ok body => { statusCode := 200, body := body }
      | .fail => { statusCode := 200, body := emergencyMockBody r t }

/-- All seven sensor fields of a body's `data` object are present. -/
def fullyPopulated (b : ApiBody) : Prop :=
  ∃ d ts, b.data = some (d, ts) ∧
    d.waste.isSome ∧ d.produced.isSome ∧ d.ejection.isSome ∧
    d.tbl_speed.isSome ∧ d.stiffness.isSome ∧ d.SREL.isSome ∧
    d.main_comp.isSome

/-- The mock defect-prediction payload of `GET /api/mock/defect` in
`UI Code/server.js`: a defect probability `Math.random() * 0.3 + 0.1`, a
risk level drawn from two further `Math.random()` calls, and **no**
confidence field at all. -/
structure MockDefect where
  defect_probability : ℚ
  risk_level : String
  confidence : Option ℚ
  source : String
  deriving DecidableEq

/-- `GET /api/mock/defect` (`server.js`). -/
def mockDefectEndpoint (rProb rRisk1 rRisk2 : ℚ) : MockDefect :=
  { defect_probability := rProb * 0.3 + 0.1
    risk_level := if rRisk1 > 0.7 then "high" else if rRisk2 > 0.4 then "medium" else "low"
    confidence := none
    source := "mock_prediction_service" }

/-- The mock quality-prediction payload of `GET /api/mock/quality` in
`UI Code/server.js`. -/
structure MockQuality where
  quality_class : String
  confidence : ℚ
  probHigh : ℚ
  probMedium : ℚ
  probLow : ℚ
  source : String
  deriving DecidableEq

/-- `GET /api/mock/quality` (`server.js`): the class is
`['High','Medium','Low'][Math.floor(Math.random() * 3)]` and the
confidence is `0.7 + Math.random() * 0.2`. -/
def mockQualityEndpoint (rClass rConf rH rM rL : ℚ) : MockQuality :=
  { quality_class := (["High", "Medium", "Low"].getD (⌊rClass * 3⌋).toNat "Low")
    confidence := 0.7 + rConf * 0.2
    probHigh := rH * 0.5
    probMedium := rM * 0.5
    probLow := rL * 0.3
    source := "mock_prediction_service" }

/-! ## Degraded-mode report renderer

The `reportTemplates` table and the `/api/reports/generate` endpoint of
`UI Code/server.js`.  Each template is a JS template literal: an
alternation of fixed text, snapshot-derived text and clock-derived text.
We model a rendered document as the list of these segments; a segment that
does not depend on the clock is resolved to its final string at
construction time, and the clock-derived segments (`new Date()`
renderings and the `Date.now()`-derived batch id) are kept symbolic and
resolved by `evalChunk` at a given clock instant. -/

/-- Stand-in rendering for `new Date(t).toLocaleString()`.  The exact
locale text is irrelevant to every claim; all that matters is that it is a
deterministic function of the clock instant `t` (milliseconds). -/
def fmtDateTime (t : Nat) : String := "<datetime:" ++ toString t ++ ">"

/-- Stand-in rendering for `new Date(t).toLocaleDateString()`. -/
def fmtDate (t : Nat) : String := "<date:" ++ toString t ++ ">"

/-- `Date.now().toString().slice(-6)`: the last six characters of the
decimal millisecond clock. -/
def sliceLast6 (t : Nat) : String :=
  let s := toString t
  s.drop (s.length - 6)

/-- `Number.prototype.toFixed(f)`: the sign is taken first, then the
magnitude is rounded half-up to `f` decimal digits and printed with
exactly `f` digits after the point. -/
def toFixed (f : Nat) (q : ℚ) : String :=
  let sign := if q < 0 then "-" else ""
  let n : Nat := (jsRound (|q| * (10 : ℚ) ^ f)).toNat
  if f = 0 then sign ++ toString n
  else
    let base := 10 ^ f
    let fracStr := toString (n % base)
    let padded := String.mk (List.replicate (f - fracStr.length) '0') ++ fracStr
    sign ++ toString (n / base) ++ "." ++ padded

/-- `x?.toFixed(f) || 'N/A'`: an absent field renders as `N/A` (the
`toFixed` string of a present number is never empty, hence never falsy). -/
def optFixed (f : Nat) (x : Option ℚ) : String :=
  match x with
  | none => "N/A"
  | some v => toFixed f v

/-- One segment of a rendered report document. -/
inductive Chunk where
  /-- Text fully determined by the template and the sensor snapshot. -/
  | lit (s : String)
  /-- `new Date().toLocaleString()` at generation time. -/
  | genTime
  /-- `new Date(Date.now() + n*24*60*60*1000).toLocaleDateString()`. -/
  | datePlusDays (n : Nat)
  /-- `Date.now().toString().slice(-6)` — the batch-id digits. -/
  | batchTail
  deriving DecidableEq

/-- Resolve one segment at clock instant `t`. -/
def evalChunk (t : Nat) : Chunk → String
  | .lit s => s
  | .genTime => fmtDateTime t
  | .datePlusDays n => fmtDate (t + n * 24 * 60 * 60 * 1000)
  | .batchTail => sliceLast6 t

/-- Segments that render a date or time of generation. -/
def isTimeText : Chunk → Bool
  | .genTime => true
  | .datePlusDays _ => true
  | _ => false

/-- Segments whose rendering depends on the clock at all (the time texts
plus the `Date.now()`-derived batch id). -/
def isClockDerived : Chunk → Bool
  | .lit _ => false
  | _ => true

/-- The closed set of template keys of `reportTemplates`. -/
inductive ReportType where
  | quality_control
  | batch_record
  | process_deviation
  | oee_performance
  | regulatory_compliance
  | manufacturing_excellence
  deriving DecidableEq

/-- The `name` field of each entry of `reportTemplates`. -/
def templateName : ReportType → String
  | .quality_control => "Quality Control Report"
  | .batch_record => "Batch Record Analysis"
  | .process_deviation => "Process Deviation Investigation"
  | .oee_performance => "OEE Performance Summary"
  | .regulatory_compliance => "Regulatory Compliance Review"
  | .manufacturing_excellence => "Manufacturing Excellence Report"

/-- The object key of each entry of `reportTemplates`. -/
def keyOf : ReportType → String
  | .quality_control => "quality_control"
  | .batch_record => "batch_record"
  | .process_deviation => "process_deviation"
  | .oee_performance => "oee_performance"
  | .regulatory_compliance => "regulatory_compliance"
  | .manufacturing_excellence => "manufacturing_excellence"

/-- The *own* keys of the `reportTemplates` object literal: `some` exactly
on the six defined template keys.  (The full JS bracket lookup, which also
consults the prototype chain, is `reportTemplatesLookup` below.) -/
def templateOfKey : String → Option ReportType
  | "quality_control" => some .quality_control
  | "batch_record" => some .batch_record
  | "process_deviation" => some .process_deviation
  | "oee_performance" => some .oee_performance
  | "regulatory_compliance" => some .regulatory_compliance
  | "manufacturing_excellence" => some .manufacturing_excellence
  | _ => none

/-- The `quality_control` template. -/
def qualityControlChunks (d : SensorData) : List Chunk :=
  [ .lit "# Quality Control Report\n\n## Executive Summary\nThis quality control report provides an analysis of current manufacturing parameters and quality metrics based on real-time sensor data.\n\n**Report Generated:** "
  , .genTime
  , .lit ("\n\n## Current System Status\n- **Waste Level:** " ++ optFixed 2 d.waste
      ++ " units\n- **Production Rate:** " ++ optFixed 0 d.produced
      ++ " units/hour\n- **Ejection Rate:** " ++ optFixed 1 d.ejection
      ++ " units/min\n- **Table Speed:** " ++ optFixed 1 d.tbl_speed
      ++ " RPM\n- **Tablet Stiffness:** " ++ optFixed 1 d.stiffness
      ++ " N\n- **SREL Value:** " ++ optFixed 2 d.SREL
      ++ "\n- **Main Component:** " ++ optFixed 1 d.main_comp
      ++ " mg\n\n## Quality Assessment\n"
      ++ (if jsGt d.waste 2.5 then "⚠️ **WARNING:** Waste levels are elevated. Immediate attention required."
          else "✅ **GOOD:** Waste levels are within acceptable range.")
      ++ "\n\n"
      ++ (if jsLt d.produced 900 then "⚠️ **WARNING:** Production rate is below target."
          else "✅ **GOOD:** Production rate meets targets.")
      ++ "\n\n## Recommendations\n- Regular monitoring of waste levels\n- Maintain optimal tablet speed between 100-120 RPM\n- Continue current quality control procedures\n- Schedule maintenance if parameters drift outside normal ranges\n\n## Compliance Notes\nThis report is generated in accordance with pharmaceutical manufacturing standards and provides a snapshot of current manufacturing quality metrics.") ]

/-- The `batch_record` template.  Its batch id `BATCH-` is completed from
`Date.now()`, so the document contains a clock-derived segment that is not
a date or time rendering. -/
def batchRecordChunks (d : SensorData) : List Chunk :=
  [ .lit "# Batch Record Analysis\n\n## Batch Information\n**Batch ID:** BATCH-"
  , .batchTail
  , .lit "\n**Analysis Date:** "
  , .genTime
  , .lit ("\n**Manufacturing Line:** Primary Production Line\n\n## Process Parameters\n| Parameter | Current Value | Specification | Status |\n|-----------|---------------|---------------|---------|\n| Waste | "
      ++ optFixed 2 d.waste ++ " | < 3.0 | "
      ++ (if jsGt d.waste 3.0 then "❌ Out of Spec" else "✅ In Spec")
      ++ " |\n| Production Rate | " ++ optFixed 0 d.produced ++ " | > 900 units/hr | "
      ++ (if jsLt d.produced 900 then "❌ Below Target" else "✅ On Target")
      ++ " |\n| Ejection Rate | " ++ optFixed 1 d.ejection ++ " | 120-140 units/min | "
      ++ (if jsLt d.ejection 120 || jsGt d.ejection 140 then "⚠️ Monitor" else "✅ Normal")
      ++ " |\n| Table Speed | " ++ optFixed 1 d.tbl_speed ++ " | 100-120 RPM | "
      ++ (if jsLt d.tbl_speed 100 || jsGt d.tbl_speed 120 then "⚠️ Monitor" else "✅ Normal")
      ++ " |\n\n## Critical Control Points\n- All parameters within acceptable manufacturing ranges\n- No deviations requiring investigation\n- Batch release recommendation: APPROVED\n\n## Signature\n**QC Analyst:** Smart Pharma Copilot System\n**Date:** ")
  , .genTime ]

/-- The `process_deviation` template. -/
def processDeviationChunks (d : SensorData) : List Chunk :=
  [ .lit "# Process Deviation Investigation Report\n\n## Deviation Summary\n**Investigation Date:** "
  , .genTime
  , .lit ("\n**Deviation Type:** Parameter Monitoring Review\n\n## Current Parameter Analysis\nBased on current sensor readings, the following analysis has been conducted:\n\n### Waste Management\n- Current waste level: "
      ++ optFixed 2 d.waste ++ " units\n- "
      ++ (if jsGt d.waste 2.5 then "DEVIATION IDENTIFIED: Waste levels exceed normal operating range"
          else "Normal operation - no deviation detected")
      ++ "\n\n### Production Efficiency\n- Current production rate: " ++ optFixed 0 d.produced ++ " units/hour\n- "
      ++ (if jsLt d.produced 900 then "DEVIATION IDENTIFIED: Production rate below target efficiency"
          else "Production operating within normal parameters")
      ++ "\n\n## Root Cause Analysis\n"
      ++ (if jsGt d.waste 2.5 || jsLt d.produced 900 then "- Review equipment calibration\n- Check raw material quality\n- Verify operator procedures\n- Investigate environmental conditions"
          else "No significant deviations detected in current monitoring period")
      ++ "\n\n## Corrective Actions\n"
      ++ (if jsGt d.waste 2.5 || jsLt d.produced 900 then "1. Immediate monitoring of critical parameters\n2. Equipment inspection scheduled\n3. Additional sampling for quality verification"
          else "Continue routine monitoring and maintenance schedule")
      ++ "\n\n## Investigation Conclusion\n"
      ++ (if jsGt d.waste 2.5 || jsLt d.produced 900 then "Investigation ongoing - additional monitoring required"
          else "No process deviations requiring formal investigation at this time")
      ++ "\n\n**Report Status:** "
      ++ (if jsGt d.waste 2.5 || jsLt d.produced 900 then "OPEN" else "CLOSED")) ]

/-- The `oee_performance` template. -/
def oeePerformanceChunks (d : SensorData) : List Chunk :=
  [ .lit "# OEE Performance Summary\n\n## Overall Equipment Effectiveness Analysis\n**Report Period:** "
  , .genTime
  , .lit ("\n\n## Key Performance Indicators\n\n### Availability\n- Equipment uptime: Estimated 95%+ (based on continuous sensor data)\n- Production rate: "
      ++ optFixed 0 d.produced ++ " units/hour\n\n### Performance Rate\n- Current speed: "
      ++ optFixed 1 d.tbl_speed ++ " RPM\n- Target speed: 110 RPM\n- Performance efficiency: "
      ++ (if jsTruthy d.tbl_speed then toFixed 1 (getF d.tbl_speed / 110 * 100) else "N/A")
      ++ "%\n\n### Quality Rate\n- Waste percentage: "
      ++ (if jsTruthy d.waste && jsTruthy d.produced then toFixed 2 (getF d.waste / getF d.produced * 100) else "N/A")
      ++ "%\n- Quality rate: "
      ++ (if jsTruthy d.waste && jsTruthy d.produced then toFixed 1 (100 - getF d.waste / getF d.produced * 100) else "N/A")
      ++ "%\n\n## OEE Calculation\n"
      ++ (if jsTruthy d.tbl_speed && jsTruthy d.waste && jsTruthy d.produced then
            "\n**Estimated OEE:** "
            ++ toFixed 1 (0.95 * (getF d.tbl_speed / 110) * (1 - getF d.waste / getF d.produced) * 100)
            ++ "%\n\n### Performance Breakdown:\n- Availability: 95.0%\n- Performance: "
            ++ toFixed 1 (getF d.tbl_speed / 110 * 100)
            ++ "%\n- Quality: "
            ++ toFixed 1 ((1 - getF d.waste / getF d.produced) * 100)
            ++ "%\n"
          else "OEE calculation requires complete sensor data")
      ++ "\n\n## Recommendations for Improvement\n- Optimize table speed to maintain 110 RPM target\n- Implement predictive maintenance to maximize availability\n- Continue waste reduction initiatives\n- Monitor quality metrics for continuous improvement\n\n## Trending Analysis\nContinue monitoring these key metrics for trending analysis and optimization opportunities.") ]

/-- The `regulatory_compliance` template. -/
def regulatoryComplianceChunks (d : SensorData) : List Chunk :=
  [ .lit "# Regulatory Compliance Review\n\n## Compliance Assessment Summary\n**Review Date:** "
  , .genTime
  , .lit ("\n**Regulatory Framework:** FDA 21 CFR Part 211, ICH Guidelines\n\n## Manufacturing Parameter Compliance\n\n### Critical Process Parameters (CPP)\n| Parameter | Current | Specification | Compliance Status |\n|-----------|---------|---------------|-------------------|\n| Tablet Weight | "
      ++ optFixed 1 d.main_comp ++ " mg | 15.0 ± 5% mg | "
      ++ (if jsTruthy d.main_comp && decide (|getF d.main_comp - 15| ≤ 0.75) then "✅ Compliant" else "⚠️ Review Required")
      ++ " |\n| Compression Force | " ++ optFixed 1 d.stiffness ++ " N | 80-120 N | "
      ++ (if jsTruthy d.stiffness && jsGe d.stiffness 80 && decide (getF d.stiffness ≤ 120) then "✅ Compliant" else "⚠️ Review Required")
      ++ " |\n| Production Rate | " ++ optFixed 0 d.produced ++ " units/hr | Min 900 units/hr | "
      ++ (if jsGe d.produced 900 then "✅ Compliant" else "⚠️ Review Required")
      ++ " |\n\n### Quality Control Compliance\n- **Data Integrity:** All sensor data automatically logged with timestamps\n- **Batch Records:** Continuous monitoring and documentation\n- **Change Control:** No unauthorized changes detected\n- **Deviation Management:** Real-time monitoring for out-of-specification conditions\n\n## Validation Status\n- **Equipment Qualification:** Current and valid\n- **Process Validation:** Ongoing monitoring confirms validated state\n- **Cleaning Validation:** Scheduled maintenance protocols active\n\n## Audit Readiness\n✅ **Ready for Inspection**\n- Real-time monitoring systems operational\n- Electronic batch records maintained\n- Deviation investigation procedures active\n- Quality control testing protocols verified\n\n## Regulatory Recommendations\n1. Continue current GMP practices\n2. Maintain calibrated monitoring systems\n3. Regular review of critical process parameters\n4. Document any process improvements through change control\n\n**Compliance Officer:** Smart Pharma Copilot System\n**Next Review:** ")
  , .datePlusDays 30 ]

/-- The `manufacturing_excellence` template. -/
def manufacturingExcellenceChunks (d : SensorData) : List Chunk :=
  [ .lit "# Manufacturing Excellence Report\n\n## Executive Dashboard\n**Excellence Review Date:** "
  , .genTime
  , .lit ("\n\n## Performance Scorecard\n\n### Operational Excellence\n| Metric | Current Performance | Target | Score |\n|--------|-------------------|---------|-------|\n| Waste Efficiency | "
      ++ (if jsTruthy d.waste then toFixed 1 (100 - getF d.waste) else "N/A")
      ++ "% | >97% | "
      ++ (if jsLt d.waste 3 then "🟢 Excellent" else "🟡 Good")
      ++ " |\n| Production Throughput | " ++ optFixed 0 d.produced ++ " units/hr | 1000+ units/hr | "
      ++ (if jsGt d.produced 1000 then "🟢 Excellent" else if jsGt d.produced 900 then "🟡 Good" else "🔴 Needs Improvement")
      ++ " |\n| Equipment Reliability | "
      ++ (if jsTruthy d.tbl_speed then "Active" else "Unknown")
      ++ " | 99%+ uptime | 🟢 Excellent |\n\n### Quality Excellence\n- **Product Consistency:** "
      ++ (if jsTruthy d.stiffness then "Monitored" else "Unknown")
      ++ "\n- **Process Capability:** Within statistical control\n- **Customer Satisfaction:** Quality parameters maintained\n\n### Innovation & Improvement\n- **Digital Transformation:** Smart monitoring systems active\n- **Predictive Analytics:** Real-time sensor data analysis\n- **Continuous Improvement:** Automated deviation detection\n\n## Best Practices Implementation\n✅ **Real-time Monitoring:** Advanced sensor networks deployed\n✅ **Data-Driven Decisions:** Automated analysis and reporting\n✅ **Predictive Maintenance:** Condition-based monitoring active\n✅ **Quality by Design:** Process understanding and control\n\n## Optimization Opportunities\n1. **Production Optimization:** "
      ++ (if jsLt d.produced 1000 then "Increase throughput to exceed 1000 units/hr" else "Maintain excellent production rates")
      ++ "\n2. **Waste Reduction:** "
      ++ (if jsGt d.waste 2 then "Implement lean manufacturing practices to reduce waste" else "Continue excellent waste management")
      ++ "\n3. **Process Automation:** Expand automated monitoring to additional parameters\n\n## Strategic Initiatives\n- **Industry 4.0 Implementation:** Smart factory technologies deployed\n- **Sustainability Goals:** Waste reduction and energy efficiency focus\n- **Regulatory Excellence:** Continuous compliance monitoring\n\n## Future Vision\nContinue leadership in pharmaceutical manufacturing excellence through:\n- Advanced analytics and AI-driven optimization\n- Sustainable manufacturing practices\n- World-class quality systems\n- Innovation in process technology\n\n**Excellence Score:** "
      ++ (if jsLt d.waste 2 && jsGt d.produced 1000 then "95/100 - Outstanding"
          else if jsLt d.waste 3 && jsGt d.produced 900 then "85/100 - Excellent"
          else "75/100 - Good")
      ++ "\n\n**Manufacturing Excellence Team**\n**Next Review:** ")
  , .datePlusDays 7 ]

/-- `reportTemplates[rt].template(data)` as a segment list. -/
def reportTemplateChunks : ReportType → SensorData → List Chunk
  | .quality_control, d => qualityControlChunks d
  | .batch_record, d => batchRecordChunks d
  | .process_deviation, d => processDeviationChunks d
  | .oee_performance, d => oeePerformanceChunks d
  | .regulatory_compliance, d => regulatoryComplianceChunks d
  | .manufacturing_excellence, d => manufacturingExcellenceChunks d

/-- Concatenation of the rendered segments. -/
def joinStr : List String → String
  | [] => ""
  | s :: rest => s ++ joinStr rest

/-- The full document produced by `reportTemplates[rt].template(data)` at
clock instant `t`. -/
def renderReport (rt : ReportType) (d : SensorData) (t : Nat) : String :=
  joinStr ((reportTemplateChunks rt d).map (evalChunk t))

/-- `needle` occurs as a contiguous substring of `hay`. -/
def containsStr (hay needle : String) : Prop :=
  needle.data <:+: hay.data

instance containsStrDecidable (hay needle : String) : Decidable (containsStr hay needle) :=
  inferInstanceAs (Decidable (needle.data <:+: hay.data))

/-- The caller-visible part of the body returned by a successful
degraded-mode report generation. -/
structure ReportResponse where
  status : String
  source : String
  report_content : String
  metadata_report_type : String
  report_name : String
  deriving DecidableEq

/-- `req.body?.report_type || 'quality_control'`: a missing key defaults,
and so does any falsy value (in particular the empty string). -/
def resolveReportType : Option String → String
  | none => "quality_control"
  | some s => if s = "" then "quality_control" else s

/-- The property names a plain JS object literal inherits from
`Object.prototype`: bracket lookup with any of these on `reportTemplates`
yields a truthy inherited value (a function, or `Object.prototype` itself
for the last accessor), not `undefined`. -/
def protoKeys : List String :=
  ["constructor", "hasOwnProperty", "isPrototypeOf", "propertyIsEnumerable",
   "toLocaleString", "toString", "valueOf", "__defineGetter__",
   "__defineSetter__", "__lookupGetter__", "__lookupSetter__", "__proto__"]

/-- Outcome of the JS bracket lookup `reportTemplates[s]`: one of the six
own keys, a truthy member inherited from `Object.prototype`, or
`undefined`. -/
inductive TemplateLookup where
  | own (rt : ReportType)
  | inherited
  | absent
  deriving DecidableEq

/-- `reportTemplates[s]`, including the prototype chain consulted by a JS
property access. -/
def reportTemplatesLookup (s : String) : TemplateLookup :=
  match templateOfKey s with
  | some rt => .own rt
  | none => if protoKeys.contains s then .inherited else .absent

/-- What the request observes from a report-generation handler: a JSON
success payload, or an error response with its status code and `status`
field. -/
inductive ReportResult where
  | ok (resp : ReportResponse)
  | errorResponse (statusCode : Nat) (status : String)
  deriving DecidableEq

/-- `handleBuiltInReportGeneration` (`UI Code/server.js`), the built-in
generator the legacy `/reports` proxy falls back to: resolve the
requested type, look `reportTemplates[reportType] || quality_control` up,
and call `template.template(sensorData)`.  When the lookup hit an
inherited `Object.prototype` member, the `||` fallback does not fire,
`template.template` is not a function, the call throws, and the catch
answers `500` with `status: 'error'`; otherwise the handler answers a
success payload tagged `source: 'built_in_report_service_legacy_fallback'`
whose metadata echoes the resolved `report_type` string. -/
def handleBuiltInReportGeneration (body_report_type : Option String) (d : SensorData)
    (t : Nat) : ReportResult :=
  let rt := resolveReportType body_report_type
  match reportTemplatesLookup rt with
  | .own tmpl =>
      .ok { status := "success"
            source := "built_in_report_service_legacy_fallback"
            report_content := renderReport tmpl d t
            metadata_report_type := rt
            report_name := templateName tmpl }
  | .inherited => .errorResponse 500 "error"
  | .absent =>
      .ok { status := "success"
            source := "built_in_report_service_legacy_fallback"
            report_content := renderReport .quality_control d t
            metadata_report_type := rt
            report_name := templateName .quality_control }

/-- The two routes on which the dashboard can issue a report-generation
request. -/
inductive ReportRoute where
  | apiPath
  | legacyPath
  deriving DecidableEq

/-- How the gateway serves a report-generation request while the
narrative report service is unreachable.  Both routes are intercepted by
proxies registered before the built-in `app.post` handler, so that
handler is dead code.  On `POST /api/reports/generate` the `/api/reports`
proxy's `onError` rewrites `req.url` to the legacy path but neither sends
a response nor re-dispatches the request, so the caller receives nothing
at all.  On the legacy `POST /reports/generate` the `/reports` proxy's
`onError` answers via `handleBuiltInReportGeneration`. -/
def degradedReportDispatch (route : ReportRoute) (body_report_type : Option String)
    (d : SensorData) (t : Nat) : Option ReportResult :=
  match route with
  | .apiPath => none
  | .legacyPath => some (handleBuiltInReportGeneration body_report_type d t)

/-! ## Concrete inputs shared by witnesses and counterexamples -/

/-- A snapshot with every field absent. -/
def emptySensorData : SensorData := ⟨none, none, none, none, none, none, none⟩

/-- Seven zero random draws (a legal value of `Math.random()`). -/
def zeroDraws : Draws := ⟨0, 0, 0, 0, 0, 0, 0⟩

/-- The wire shape of a raw sensor-API current-reading response as
documented in the Sensor Data Simulation README
(`{"status": "success", "data": {...}, "timestamp": "..."}`): in
particular it carries no `source` field. -/
def sensorApiBody (d : SensorData) (ts : Nat) : ApiBody :=
  { status := some "success"
    data := some (d, some ts)
    source := none
    note := none
    generated_at := none }

/-- The snapshot of the spec's worked OEE example:
`{speed: 0, ejection: 200, waste: 10, throughput: 0}`. -/
def c3Snapshot : SensorData :=
  { waste := some 10
    produced := some 0
    ejection := some 200
    tbl_speed := some 0
    stiffness := none
    SREL := none
    main_comp := none }

/-! ## Small order facts about the clamping helpers -/

theorem jsMax_left (a b : ℚ) : a ≤ jsMax a b := by
  unfold jsMax; split <;> linarith

theorem jsMax_lub {a b c : ℚ} (h1 : a ≤ c) (h2 : b ≤ c) : jsMax a b ≤ c := by
  unfold jsMax; split <;> linarith

theorem jsMin_left (a b : ℚ) : jsMin a b ≤ a := by
  unfold jsMin; split <;> linarith

theorem round1_ge_92 {x : ℚ} (h : 92 ≤ x) : 92 ≤ round1 x := by
  have h1 : (920 : ℤ) ≤ ⌊x * 10 + 1/2⌋ := by
    apply Int.le_floor.mpr
    push_cast
    linarith
  have h2 : (920 : ℚ) ≤ (⌊x * 10 + 1/2⌋ : ℚ) := by exact_mod_cast h1
  unfold round1 jsRound
  linarith

theorem round1_le_998 {x : ℚ} (h : x ≤ 99.8) : round1 x ≤ 99.8 := by
  have h1 : ⌊x * 10 + 1/2⌋ < 999 := by
    apply Int.floor_lt.mpr
    push_cast
    linarith
  have h2 : (⌊x * 10 + 1/2⌋ : ℚ) ≤ 998 := by exact_mod_cast Int.lt_add_one_iff.mp h1
  unfold round1 jsRound
  linarith

/-! ## Claims -/

/-- C1 (confirmed): when the prediction-API proxy errors and the raw
sensor-API fallback call also fails, the `/api/current` cascade still
responds `200` with a fully-populated synthetic reading tagged by the
synthetic generator (`emergency_fallback_mock`) — never an error
response.  This holds for every random draw and every clock instant. -/
theorem current_cascade_total_synthetic (r : Draws) (t : Nat) :
    (apiCurrentCascade .fail .fail r t).statusCode = 200 ∧
    (apiCurrentCascade .fail .fail r t).body.source = some "emergency_fallback_mock" ∧
    fullyPopulated (apiCurrentCascade .fail .fail r t).body :=
  ⟨rfl, rfl, mockCurrentData r, some t, rfl, rfl, rfl, rfl, rfl, rfl, rfl, rfl⟩

/-- C2 counterexample: a result produced by the fallback sensor API is
*not* tagged as fallback-tier — the gateway forwards the upstream body
verbatim, and the documented sensor-API wire shape carries no `source`
field, so the response carries no provenance tag at all. -/
theorem sensor_fallback_untagged_cex :
    (apiCurrentCascade .fail (.ok (sensorApiBody emptySensorData 0)) zeroDraws 0).body
      = sensorApiBody emptySensorData 0 ∧
    (apiCurrentCascade .fail (.ok (sensorApiBody emptySensorData 0)) zeroDraws 0).body.source
      = none :=
  ⟨rfl, rfl⟩

/-- C2 (corrected): the synthetic terminal tier is truthfully tagged
`emergency_fallback_mock`, but a result obtained from the fallback sensor
API is forwarded verbatim (`res.json(response.data)`): the gateway adds no
fallback-tier tag, so such a response carries only whatever tag the
upstream payload itself contains. -/
theorem provenance_tags_amended (sb : ApiBody) (r : Draws) (t : Nat) :
    (apiCurrentCascade .fail (.ok sb) r t).statusCode = 200 ∧
    (apiCurrentCascade .fail (.ok sb) r t).body = sb ∧
    (apiCurrentCascade .fail .fail r t).body.source = some "emergency_fallback_mock" :=
  ⟨rfl, rfl, rfl⟩

/-- C3 counterexample: on the snapshot
`{speed: 0, ejection: 200, waste: 10, throughput: 0}` with no AI
predictions, the scoring engine clamps availability to its floor `85`
(not `65`: `98−12−4−2−15 = 65` lies below the documented floor), and the
derived status is `fair` (overall `62.6 ≥ 55`), not `poor`. -/
theorem oee_example_cex :
    (calculateOEEFromRealData c3Snapshot none none false).availability = 85 ∧
    (85 : ℚ) ≠ 65 ∧
    getOEEStatus (calculateOEEFromRealData c3Snapshot none none false).overall = .fair ∧
    OEEStatus.fair ≠ .poor := by
  refine ⟨?_, by norm_num, ?_, by simp⟩
  · norm_num [calculateOEEFromRealData, getF, jsMin, jsMax, round1, jsRound, c3Snapshot]
  · norm_num [calculateOEEFromRealData, getF, jsMin, jsMax, round1, jsRound, c3Snapshot,
      getOEEStatus]

/-- C3 (corrected): on the snapshot
`{speed: 0, ejection: 200, waste: 10, throughput: 0}` with no AI
predictions the engine returns availability `85` (the clamp floor),
performance `80` (its floor), quality `92` (its floor), overall `62.6`,
and status `fair`. -/
theorem oee_example_amended :
    calculateOEEFromRealData c3Snapshot none none false
      = { overall := 62.6, availability := 85, performance := 80, quality := 92 } ∧
    getOEEStatus (calculateOEEFromRealData c3Snapshot none none false).overall = .fair := by
  constructor <;>
    norm_num [calculateOEEFromRealData, getF, jsMin, jsMax, round1, jsRound, c3Snapshot,
      getOEEStatus]

/-- C4 counterexample: with a defect prediction of probability `0.5` the
code returns quality `92`, whereas `clamp((1 − 0.5)·100, 90, 99.8) = 90`:
the claimed formula (floor `90`) disagrees with the engine's final floor
of `92`. -/
theorem quality_clamp_cex :
    (calculateOEEFromRealData emptySensorData (some 0.5) none false).quality = 92 ∧
    jsMax 90 (jsMin 99.8 ((1 - 0.5) * 100)) = 90 ∧
    (92 : ℚ) ≠ 90 := by
  refine ⟨?_, ?_, by norm_num⟩
  · norm_num [calculateOEEFromRealData, getF, jsMin, jsMax, round1, jsRound, emptySensorData]
  · norm_num [jsMin, jsMax]

/-- C4 (corrected): whenever a DefectPrediction is available, the quality
sub-score equals `round1 (clamp (clamp₉₀ ((1 − p)·100) · m) 92 99.8)` —
an inner floor of `90`, the quality-class multiplier `m` (`1` when no
QualityPrediction applies), and a final clamp to `[92, 99.8]`; in
particular it is always at least `92` (hence ≥ 90) and at most `99.8`. -/
theorem quality_defect_formula_amended (s : SensorData) (p : ℚ) (qc : Option String)
    (b : Bool) :
    (calculateOEEFromRealData s (some p) qc b).quality
      = round1 (jsMax 92 (jsMin 99.8 (jsMax 90 ((1 - p) * 100) * qualityMultiplier qc))) ∧
    92 ≤ (calculateOEEFromRealData s (some p) qc b).quality ∧
    (calculateOEEFromRealData s (some p) qc b).quality ≤ 99.8 := by
  have heq : (calculateOEEFromRealData s (some p) qc b).quality
      = round1 (jsMax 92 (jsMin 99.8 (jsMax 90 ((1 - p) * 100) * qualityMultiplier qc))) := by
    cases qc with
    | none => simp [calculateOEEFromRealData, qualityMultiplier]
    | some c => simp [calculateOEEFromRealData]
  refine ⟨heq, ?_, ?_⟩
  · rw [heq]
    exact round1_ge_92 (jsMax_left _ _)
  · rw [heq]
    exact round1_le_998 (jsMax_lub (by norm_num) (jsMin_left _ _))

/-- C5 counterexample: the quality-prediction mock of `server.js` draws its
confidence as `0.7 + Math.random() * 0.2`, so the draw `0` — a legal value
of `Math.random()` — yields confidence `0.7 < 0.75`; moreover the defect
mock of `server.js` carries no confidence field at all. -/
theorem mock_confidence_cex :
    unitDraw 0 ∧
    (mockQualityEndpoint 0 0 0 0 0).confidence = 0.7 ∧
    ¬ (0.75 ≤ (mockQualityEndpoint 0 0 0 0 0).confidence) ∧
    (mockDefectEndpoint 0 0 0).confidence = none := by
  refine ⟨by norm_num [unitDraw], ?_, ?_, rfl⟩ <;> norm_num [mockQualityEndpoint]

/-- C5 (corrected): for every draw in `[0, 1)` the synthesized
QualityPrediction of `server.js` carries a confidence in `[0.7, 0.9)` —
a floor of `0.7`, not `0.75` — and the synthesized DefectPrediction of
`server.js` carries no confidence field at all. -/
theorem mock_confidence_amended (rClass rConf rH rM rL rProb rRisk1 rRisk2 : ℚ)
    (h : unitDraw rConf) :
    0.7 ≤ (mockQualityEndpoint rClass rConf rH rM rL).confidence ∧
    (mockQualityEndpoint rClass rConf rH rM rL).confidence < 0.9 ∧
    (mockDefectEndpoint rProb rRisk1 rRisk2).confidence = none := by
  obtain ⟨h0, h1⟩ := h
  refine ⟨?_, ?_, rfl⟩ <;> simp only [mockQualityEndpoint] <;> nlinarith

/-- Witness for C5's amended theorem at the concrete draw `1/2`. -/
theorem mock_confidence_amended_witness :
    unitDraw (1/2) ∧
    (0.7 ≤ (mockQualityEndpoint 0 (1/2) 0 0 0).confidence ∧
      (mockQualityEndpoint 0 (1/2) 0 0 0).confidence < 0.9 ∧
      (mockDefectEndpoint 0 0 0).confidence = none) :=
  ⟨by norm_num [unitDraw],
    mock_confidence_amended 0 (1/2) 0 0 0 0 0 0 (by norm_num [unitDraw])⟩

/-- C8 (confirmed): for every draw of the pseudo-random source, each field
of the synthetic current reading lies inside its documented interval:
waste in `[1, 4]`, produced in `[800, 1300]`, ejection in `[100, 140]`,
tablet speed in `[90, 120]`, stiffness in `[75, 125]`, SREL in
`[2.5, 5.5]`, and main compression in `[12, 20]`. -/
theorem mock_reading_bounds (r : Draws) (h : unitDraws r) :
    (1 ≤ getF (mockCurrentData r).waste ∧ getF (mockCurrentData r).waste ≤ 4) ∧
    (800 ≤ getF (mockCurrentData r).produced ∧ getF (mockCurrentData r).produced ≤ 1300) ∧
    (100 ≤ getF (mockCurrentData r).ejection ∧ getF (mockCurrentData r).ejection ≤ 140) ∧
    (90 ≤ getF (mockCurrentData r).tbl_speed ∧ getF (mockCurrentData r).tbl_speed ≤ 120) ∧
    (75 ≤ getF (mockCurrentData r).stiffness ∧ getF (mockCurrentData r).stiffness ≤ 125) ∧
    (2.5 ≤ getF (mockCurrentData r).SREL ∧ getF (mockCurrentData r).SREL ≤ 5.5) ∧
    (12 ≤ getF (mockCurrentData r).main_comp ∧ getF (mockCurrentData r).main_comp ≤ 20) := by
  simp only [unitDraws, unitDraw] at h
  obtain ⟨⟨hw0, hw1⟩, ⟨hp0, hp1⟩, ⟨he0, he1⟩, ⟨hs0, hs1⟩, ⟨ht0, ht1⟩, ⟨hr0, hr1⟩,
    ⟨hm0, hm1⟩⟩ := h
  simp only [mockCurrentData, getF, Option.getD_some]
  refine ⟨⟨?_, ?_⟩, ⟨?_, ?_⟩, ⟨?_, ?_⟩, ⟨?_, ?_⟩, ⟨?_, ?_⟩, ⟨?_, ?_⟩, ⟨?_, ?_⟩⟩ <;>
    nlinarith

/-- Witness for C8's theorem at the all-zero draw. -/
theorem mock_reading_bounds_witness :
    unitDraws zeroDraws ∧
    ((1 ≤ getF (mockCurrentData zeroDraws).waste ∧
        getF (mockCurrentData zeroDraws).waste ≤ 4) ∧
      (800 ≤ getF (mockCurrentData zeroDraws).produced ∧
        getF (mockCurrentData zeroDraws).produced ≤ 1300) ∧
      (100 ≤ getF (mockCurrentData zeroDraws).ejection ∧
        getF (mockCurrentData zeroDraws).ejection ≤ 140) ∧
      (90 ≤ getF (mockCurrentData zeroDraws).tbl_speed ∧
        getF (mockCurrentData zeroDraws).tbl_speed ≤ 120) ∧
      (75 ≤ getF (mockCurrentData zeroDraws).stiffness ∧
        getF (mockCurrentData zeroDraws).stiffness ≤ 125) ∧
      (2.5 ≤ getF (mockCurrentData zeroDraws).SREL ∧
        getF (mockCurrentData zeroDraws).SREL ≤ 5.5) ∧
      (12 ≤ getF (mockCurrentData zeroDraws).main_comp ∧
        getF (mockCurrentData zeroDraws).main_comp ≤ 20)) :=
  ⟨by norm_num [unitDraws, unitDraw, zeroDraws],
    mock_reading_bounds zeroDraws (by norm_num [unitDraws, unitDraw, zeroDraws])⟩

/-- C9 (confirmed): each scoring invocation appends exactly one entry to
the rolling history; the history never exceeds 20 entries, and when an
append would exceed 20 the oldest entries are evicted from the front
(FIFO), preserving the relative order of the survivors. -/
theorem oee_history_bounded_fifo (prev : List OEEEntry) (e : OEEEntry) :
    updateHistoricalOEE prev e = prev.drop (prev.length + 1 - 20) ++ [e] ∧
    (updateHistoricalOEE prev e).length ≤ 20 ∧
    (prev.length < 20 → updateHistoricalOEE prev e = prev ++ [e]) ∧
    (prev.length = 20 → updateHistoricalOEE prev e = prev.drop 1 ++ [e]) := by
  have hmain : updateHistoricalOEE prev e = prev.drop (prev.length + 1 - 20) ++ [e] := by
    unfold updateHistoricalOEE
    simp only [List.length_append, List.length_cons, List.length_nil]
    rw [List.drop_append_eq_append_drop]
    have hz : prev.length + (0 + 1) - 20 - prev.length = 0 := by omega
    rw [hz]
    rfl
  refine ⟨hmain, ?_, ?_, ?_⟩
  · rw [hmain]
    simp only [List.length_append, List.length_drop, List.length_cons, List.length_nil]
    omega
  · intro hlt
    rw [hmain]
    have hz : prev.length + 1 - 20 = 0 := by omega
    rw [hz, List.drop_zero]
  · intro h20
    rw [hmain, h20]

/-- A concrete history entry used by the C9 witness. -/
def entryA : OEEEntry := ⟨0, 0, 0, 0, 0⟩

/-- A second concrete history entry used by the C9 witness. -/
def entryB : OEEEntry := ⟨1, 1, 1, 1, 1⟩

/-- Witness for C9's theorem at a full (length-20) history. -/
theorem oee_history_bounded_fifo_witness :
    (List.replicate 20 entryA).length = 20 ∧
    updateHistoricalOEE (List.replicate 20 entryA) entryB
      = (List.replicate 20 entryA).drop 1 ++ [entryB] :=
  ⟨by simp,
    (oee_history_bounded_fifo (List.replicate 20 entryA) entryB).2.2.2 (by simp)⟩

/-! ## String helpers for the renderer claims -/

theorem append_ne_empty (s r : String) (h : s ≠ "") : s ++ r ≠ "" := by
  intro he
  apply h
  apply String.ext
  have hd := congrArg String.data he
  rw [String.data_append] at hd
  exact (List.append_eq_nil.mp hd).1

theorem containsStr_append_right (s r nm : String) (h : containsStr s nm) :
    containsStr (s ++ r) nm := by
  obtain ⟨xs, ys, hxy⟩ := h
  refine ⟨xs, ys ++ r.data, ?_⟩
  rw [String.data_append, ← hxy]
  simp

theorem renderReport_head (rt : ReportType) (d : SensorData) (t : Nat) (c0 : Chunk)
    (cs : List Chunk) (h : reportTemplateChunks rt d = c0 :: cs) :
    renderReport rt d t = evalChunk t c0 ++ joinStr (cs.map (evalChunk t)) := by
  unfold renderReport
  rw [h]
  rfl

theorem head_lit_facts (rt : ReportType) (d : SensorData) (t : Nat) (s0 : String)
    (cs : List Chunk) (h : reportTemplateChunks rt d = .lit s0 :: cs)
    (hne : s0 ≠ "") (hinf : containsStr s0 (templateName rt)) :
    renderReport rt d t ≠ "" ∧ containsStr (renderReport rt d t) (templateName rt) := by
  rw [renderReport_head rt d t _ _ h]
  simp only [evalChunk]
  exact ⟨append_ne_empty _ _ hne, containsStr_append_right _ _ _ hinf⟩

/-- C6 counterexample: the `batch_record` template embeds
`BATCH-${Date.now().toString().slice(-6)}` — a clock-derived segment that
is *not* a date or time rendering — so two renderings of the same
snapshot at different instants differ in a part of the document other
than the embedded generation timestamp. -/
theorem renderer_batchid_cex :
    isTimeText ((reportTemplateChunks .batch_record emptySensorData).getD 1 (.lit "")) = false ∧
    evalChunk 0 ((reportTemplateChunks .batch_record emptySensorData).getD 1 (.lit ""))
      ≠ evalChunk 1 ((reportTemplateChunks .batch_record emptySensorData).getD 1 (.lit "")) := by
  constructor
  · rfl
  · decide

/-- C6 (corrected): the degraded-mode renderer is deterministic apart
from its clock-derived segments: at every segment position that does not
depend on the clock — everything except the generation timestamps, the
derived next-review dates, and (for `batch_record`) the `Date.now()`-based
batch id — two renderings of the same snapshot and report type at any two
instants agree byte for byte. -/
theorem renderer_clock_only_amended (rt : ReportType) (d : SensorData) (t1 t2 i : Nat)
    (h : isClockDerived ((reportTemplateChunks rt d).getD i (.lit "")) = false) :
    evalChunk t1 ((reportTemplateChunks rt d).getD i (.lit ""))
      = evalChunk t2 ((reportTemplateChunks rt d).getD i (.lit "")) := by
  revert h
  generalize (reportTemplateChunks rt d).getD i (.lit "") = c
  intro h
  cases c with
  | lit s => rfl
  | genTime => simp [isClockDerived] at h
  | datePlusDays n => simp [isClockDerived] at h
  | batchTail => simp [isClockDerived] at h

/-- Witness for C6's amended theorem at the head segment of the
quality-control template. -/
theorem renderer_clock_only_amended_witness :
    isClockDerived ((reportTemplateChunks .quality_control emptySensorData).getD 0 (.lit ""))
      = false ∧
    evalChunk 0 ((reportTemplateChunks .quality_control emptySensorData).getD 0 (.lit ""))
      = evalChunk 5 ((reportTemplateChunks .quality_control emptySensorData).getD 0 (.lit "")) :=
  ⟨rfl, renderer_clock_only_amended .quality_control emptySensorData 0 5 0 rfl⟩

/-- C7 counterexample: a report request on `POST /api/reports/generate`
issued while the narrative report service is unreachable receives no
result at all — the `/api/reports` proxy's `onError` rewrites `req.url`
but neither responds nor re-dispatches, so the gateway does not return a
tagged result (nor anything else). -/
theorem report_api_route_no_response_cex :
    degradedReportDispatch .apiPath (some "quality_control") emptySensorData 0 = none := rfl

/-- C7 (corrected): on the legacy `/reports/generate` route — the one
route on which a degraded report request is actually answered — the
gateway returns a result whose provenance
(`built_in_report_service_legacy_fallback`) identifies the built-in
template tier, and whose document is non-empty and contains the requested
report type's name; a request on `/api/reports/generate` instead receives
no response at all. -/
theorem report_builtin_tier_amended (rt : ReportType) (d : SensorData) (t : Nat) :
    ∃ resp, degradedReportDispatch .legacyPath (some (keyOf rt)) d t = some (.ok resp) ∧
      resp.source = "built_in_report_service_legacy_fallback" ∧
      resp.report_content ≠ "" ∧
      containsStr resp.report_content (templateName rt) := by
  have hres : resolveReportType (some (keyOf rt)) = keyOf rt := by
    cases rt <;> rfl
  have hlook : reportTemplatesLookup (keyOf rt) = .own rt := by
    cases rt <;> rfl
  have key : renderReport rt d t ≠ "" ∧
      containsStr (renderReport rt d t) (templateName rt) := by
    cases rt
    · exact head_lit_facts _ d t _ _ rfl (by decide) (by decide)
    · exact head_lit_facts _ d t _ _ rfl (by decide) (by decide)
    · exact head_lit_facts _ d t _ _ rfl (by decide) (by decide)
    · exact head_lit_facts _ d t _ _ rfl (by decide) (by decide)
    · exact head_lit_facts _ d t _ _ rfl (by decide) (by decide)
    · exact head_lit_facts _ d t _ _ rfl (by decide) (by decide)
  refine ⟨{ status := "success"
            source := "built_in_report_service_legacy_fallback"
            report_content := renderReport rt d t
            metadata_report_type := keyOf rt
            report_name := templateName rt }, ?_, rfl, key.1, key.2⟩
  simp only [degradedReportDispatch, handleBuiltInReportGeneration, hres, hlook]

/-- Witness for C7's amended theorem at a concrete request. -/
theorem report_builtin_tier_amended_witness :
    ∃ resp,
      degradedReportDispatch .legacyPath (some (keyOf .quality_control)) emptySensorData 0
        = some (.ok resp) ∧
      resp.source = "built_in_report_service_legacy_fallback" ∧
      resp.report_content ≠ "" ∧
      containsStr resp.report_content (templateName .quality_control) :=
  report_builtin_tier_amended .quality_control emptySensorData 0

/-- C10 counterexample: `toString` is not one of the six template keys,
yet the renderer does *not* silently fall back: the JS bracket lookup
finds the inherited `Object.prototype.toString`, the `||` fallback never
fires, `template.template(...)` throws, and the handler answers a `500`
error.  And for the (non-key) empty string the metadata echoes
`quality_control`, not the requested string — JS `||` treats it as
missing. -/
theorem report_type_proto_error_cex :
    templateOfKey "toString" = none ∧ "toString" ≠ "" ∧
    handleBuiltInReportGeneration (some "toString") emptySensorData 0
      = .errorResponse 500 "error" ∧
    templateOfKey "" = none ∧
    (∃ resp, handleBuiltInReportGeneration (some "") emptySensorData 0 = .ok resp ∧
      resp.metadata_report_type = "quality_control") := by
  refine ⟨rfl, by decide, rfl, rfl, ⟨_, rfl, rfl⟩⟩

/-- C10 (corrected): a missing `report_type` defaults to
`quality_control`, and a present-but-empty one is treated like a missing
one (JS `||` falsiness), its metadata echoing `quality_control`.  An
unrecognized non-empty `report_type` that is not an `Object.prototype`
property name is silently rendered with the `quality_control` template
while the metadata echoes the requested string; but an unrecognized
`report_type` naming an inherited `Object.prototype` member
(`constructor`, `toString`, …) makes the bracket lookup truthy, the
template call throw, and the handler return a `500` error. -/
theorem report_type_default_amended (d : SensorData) (t : Nat) :
    (∃ resp, handleBuiltInReportGeneration none d t = .ok resp ∧
      resp.metadata_report_type = "quality_control" ∧
      resp.report_content = renderReport .quality_control d t) ∧
    (∀ s, templateOfKey s = none → s ≠ "" → protoKeys.contains s = false →
      ∃ resp, handleBuiltInReportGeneration (some s) d t = .ok resp ∧
        resp.status = "success" ∧
        resp.report_content = renderReport .quality_control d t ∧
        resp.metadata_report_type = s) ∧
    (∀ s, templateOfKey s = none → s ≠ "" → protoKeys.contains s = true →
      handleBuiltInReportGeneration (some s) d t = .errorResponse 500 "error") := by
  refine ⟨⟨_, rfl, rfl, rfl⟩, ?_, ?_⟩
  · intro s hnone hne hproto
    have hres : resolveReportType (some s) = s := by
      unfold resolveReportType
      simp [hne]
    have hlook : reportTemplatesLookup s = .absent := by
      unfold reportTemplatesLookup
      rw [hnone, hproto]
      simp
    refine ⟨{ status := "success"
              source := "built_in_report_service_legacy_fallback"
              report_content := renderReport .quality_control d t
              metadata_report_type := s
              report_name := templateName .quality_control }, ?_, rfl, rfl, rfl⟩
    simp only [handleBuiltInReportGeneration, hres, hlook]
  · intro s hnone hne hproto
    have hres : resolveReportType (some s) = s := by
      unfold resolveReportType
      simp [hne]
    have hlook : reportTemplatesLookup s = .inherited := by
      unfold reportTemplatesLookup
      rw [hnone, hproto]
      simp
    simp only [handleBuiltInReportGeneration, hres, hlook]

/-- Witness for C10's amended theorem at a concrete unknown (non-proto)
type and a concrete inherited-key type. -/
theorem report_type_default_amended_witness :
    templateOfKey "bogus_type" = none ∧ "bogus_type" ≠ "" ∧
    protoKeys.contains "bogus_type" = false ∧
    (∃ resp, handleBuiltInReportGeneration (some "bogus_type") emptySensorData 0 = .ok resp ∧
      resp.status = "success" ∧
      resp.report_content = renderReport .quality_control emptySensorData 0 ∧
      resp.metadata_report_type = "bogus_type") ∧
    protoKeys.contains "valueOf" = true ∧
    handleBuiltInReportGeneration (some "valueOf") emptySensorData 0
      = .errorResponse 500 "error" :=
  ⟨by decide, by decide, by decide,
    (report_type_default_amended emptySensorData 0).2.1 "bogus_type"
      (by decide) (by decide) (by decide),
    by decide,
    (report_type_default_amended emptySensorData 0).2.2 "valueOf"
      (by decide) (by decide) (by decide)⟩

end PharmaCopilot
